import Mathlib

/-!
Shallow embedding of the EvalAI challenge views
(`apps/challenges/views.py`), centered on the bulk challenge-import
pipeline `create_challenge_using_zip_file` and on `get_all_challenges`.

External collaborators (Django ORM, serializers, HTTP fetch, zip archive,
filesystem) are represented by an explicit environment `Env`:
the serializer validity verdicts are oracle functions, the archive fetch
is a status code, the archive listing is a list of entry names, the parsed
YAML manifest is a structured value, and `os.path.isfile` is a predicate on
paths.  Database state is explicit (`Db`); `transaction.atomic` is modelled
by running the block's state transformer in the `Except` monad and
restoring the pre-block state when it signals an exception.
-/

/-- Python exception kinds that the embedded code can raise. -/
inductive PyErr where
  | nameError
  | keyError
  | indexError
  | valueError
  | typeError
  | doesNotExist
  | multipleObjects
deriving DecidableEq, Repr

/-- Exception propagation, written as an explicit match so that every proof
can reduce it by cases. -/
def exBind (x : Except PyErr α) (f : α → Except PyErr β) : Except PyErr β :=
  match x with
  | .error e => .error e
  | .ok a => f a

/-- Python `s.endswith(suffix)`, computed on the character lists. -/
def strEndsWith (s suffix : String) : Bool :=
  List.isSuffixOf suffix.data s.data

/-- Python `s.lower()`, computed on the character list. -/
def pyLowerStr (s : String) : String :=
  ⟨s.data.map Char.toLower⟩

/-- Decimal digits folded into a number; `none` on a non-digit. -/
def digitsToNat (ds : List Char) : Option Nat :=
  ds.foldl
    (fun acc c =>
      match acc with
      | none => none
      | some m => if c.isDigit then some (m * 10 + (c.toNat - 48)) else none)
    (some 0)

/-- Python `int(string)` on decimal literals with an optional leading
minus sign; anything else is unparsable. -/
def pyStrToInt (s : String) : Option Int :=
  match s.data with
  | [] => none
  | '-' :: rest =>
      if rest.isEmpty then none
      else (digitsToNat rest).map (fun m => -(m : Int))
  | ds => (digitsToNat ds).map (fun m => (m : Int))

/-- A YAML scalar: either a string or an integer. -/
inductive YVal where
  | s (v : String)
  | n (v : Int)
deriving DecidableEq, Repr

/-- A YAML mapping, as Python dict built left-to-right (later keys win). -/
abbrev YDict := List (String × YVal)

/-- Python `d[k]` on a dict: the most recently written binding wins,
a missing key raises `KeyError`. -/
def pyDictGet (d : YDict) (k : String) : Except PyErr YVal :=
  match d.reverse.find? (fun kv => kv.1 == k) with
  | some kv => .ok kv.2
  | none => .error .keyError

/-- Python `dict.update` folded over a list of dicts
(`data = {}; for value in chunk: data.update(value)`). -/
def mergeAll (c : List YDict) : YDict :=
  c.foldl (fun acc d => acc ++ d) []

/-- Python `int(v)`: an int is returned as is, a string is parsed,
anything unparsable raises `ValueError`. -/
def pyInt (v : YVal) : Except PyErr Int :=
  match v with
  | .n i => .ok i
  | .s str =>
      match pyStrToInt str with
      | some i => .ok i
      | none => .error .valueError

/-- Python `len(v)`: defined for strings, raises `TypeError` on ints. -/
def pyLen (v : YVal) : Except PyErr Nat :=
  match v with
  | .s str => .ok str.length
  | .n _ => .error .typeError

/-- Python `str(v)`. -/
def pyStr (v : YVal) : String :=
  match v with
  | .s str => str
  | .n i => toString i

/-- Python list indexing `l[i]` with an int index: negative indices wrap
from the end, anything out of range raises `IndexError`. -/
def pyIndex (l : List Nat) (i : Int) : Except PyErr Nat :=
  let j : Int := if i < 0 then i + l.length else i
  if h : 0 ≤ j ∧ j.toNat < l.length then .ok (l.get ⟨j.toNat, h.2⟩)
  else .error .indexError

/-- Python list indexing with a nonnegative literal index (`chunk[7]`). -/
def pyListIdx (l : List α) (i : Nat) : Except PyErr α :=
  if h : i < l.length then .ok (l.get ⟨i, h⟩) else .error .indexError

/-- Django `Model.objects.get(...)` against the list of matching rows:
exactly one row is returned, zero raises `DoesNotExist`, several raise
`MultipleObjectsReturned`. -/
def pyGetSingle (l : List Nat) : Except PyErr Nat :=
  match l with
  | [t] => .ok t
  | [] => .error .doesNotExist
  | _ => .error .multipleObjects

/-- Helper for `pyChunks`, consuming at least one element per step; the
fuel argument only bounds the recursion and equals the list length at the
call site, which is enough because every step drops at least one element
(all chunk sizes used by the import are at least 2). -/
def pyChunksAux (k : Nat) : Nat → List α → List (List α)
  | 0, _ => []
  | _, [] => []
  | fuel + 1, x :: xs => ((x :: xs).take k) :: pyChunksAux k fuel (xs.drop (k - 1))

/-- The slicing loop pattern `while key < len(l): chunk = l[key:key+k]; key += k`:
the list split into consecutive chunks of `k` elements (the last chunk may
be shorter). -/
def pyChunks (k : Nat) (l : List α) : List (List α) :=
  pyChunksAux k l.length l

/-- The parsed YAML manifest (`yaml_file_content`), with the top-level keys
the import reads.  The four section lists are flat lists of single-field
mappings, exactly as the zip-upload YAML format lays them out. -/
structure Manifest where
  image : String
  evaluation_script : String
  leaderboard : List YDict
  challenge_phases : List YDict
  dataset_splits : List YDict
  challenge_phase_splits : List YDict
deriving DecidableEq, Repr

/-- A value held by a Django `FileField` after the import: either an actual
`SimpleUploadedFile` built from a resolved path, or the raw manifest string
that was assigned when no upload object was built. -/
inductive AssetVal where
  | uploaded (path : String)
  | rawName (name : String)
deriving DecidableEq, Repr

/-- A `ChallengeConfiguration` row. -/
structure ConfigRec where
  pk : Nat
  zip_configuration : String
  challenge : Option Nat
deriving DecidableEq, Repr

/-- A `Challenge` row (the fields the import manipulates). -/
structure ChallengeRec where
  pk : Nat
  creator : Nat
  image : AssetVal
  evaluation_script : AssetVal
deriving DecidableEq, Repr

/-- A `ChallengePhase` row (the fields the import manipulates). -/
structure PhaseRec where
  pk : Nat
  challenge : Nat
  hasAnnotation : Bool
deriving DecidableEq, Repr

/-- A `ChallengePhaseSplit` row. -/
structure PhaseSplitRec where
  pk : Nat
  challenge_phase : Nat
  leaderboard : Nat
  dataset_split : Nat
  visibility : Int
deriving DecidableEq, Repr

/-- The database state visible to the import: one list per table, in
creation order, plus the next primary key to assign. -/
structure Db where
  nextPk : Nat
  configs : List ConfigRec
  challenges : List ChallengeRec
  leaderboards : List Nat
  phases : List PhaseRec
  datasetSplits : List Nat
  phaseSplits : List PhaseSplitRec
deriving DecidableEq, Repr

/-- A fresh database. -/
def emptyDb : Db := ⟨1, [], [], [], [], [], []⟩

def createConfig (db : Db) (path : String) : Db × Nat :=
  let pk := db.nextPk
  ({ db with nextPk := pk + 1,
             configs := db.configs ++ [⟨pk, path, none⟩] }, pk)

def createChallenge (db : Db) (team : Nat) (img scr : AssetVal) : Db × Nat :=
  let pk := db.nextPk
  ({ db with nextPk := pk + 1,
             challenges := db.challenges ++ [⟨pk, team, img, scr⟩] }, pk)

def createLeaderboard (db : Db) : Db × Nat :=
  let pk := db.nextPk
  ({ db with nextPk := pk + 1,
             leaderboards := db.leaderboards ++ [pk] }, pk)

def createPhase (db : Db) (ch : Nat) : Db × Nat :=
  let pk := db.nextPk
  ({ db with nextPk := pk + 1,
             phases := db.phases ++ [⟨pk, ch, false⟩] }, pk)

def createDatasetSplit (db : Db) : Db × Nat :=
  let pk := db.nextPk
  ({ db with nextPk := pk + 1,
             datasetSplits := db.datasetSplits ++ [pk] }, pk)

def createPhaseSplit (db : Db) (cp lb ds : Nat) (vis : Int) : Db × Nat :=
  let pk := db.nextPk
  ({ db with nextPk := pk + 1,
             phaseSplits := db.phaseSplits ++ [⟨pk, cp, lb, ds, vis⟩] }, pk)

/-- Set `test_annotation` on the phase row with primary key `pk`
(`challenge_phase.test_annotation = SimpleUploadedFile(...); save()`). -/
def markAnnotated (db : Db) (pk : Nat) : Db :=
  { db with phases :=
      db.phases.map (fun p => if p.pk == pk then { p with hasAnnotation := true } else p) }

/-- Set the `challenge` link of the configuration row with primary key `cfgPk`
(`zip_config.challenge = challenge; zip_config.save()`). -/
def setConfigChallenge (db : Db) (cfgPk ch : Nat) : Db :=
  { db with configs :=
      db.configs.map (fun c => if c.pk == cfgPk then { c with challenge := some ch } else c) }

/-- The environment of one invocation: everything the view reads from
request, ORM lookups, the network, the archive and the serializers. -/
structure Env where
  userName : String
  hostTeams : List Nat
  configValid : Bool
  zip_configuration : String
  statusCode : Nat
  namelist : List String
  manifest : Manifest
  isfile : String → Bool
  challengeValid : Bool
  leaderboardValid : YDict → Bool
  phaseValid : YDict → Bool
  datasetSplitValid : YDict → Bool
  phaseSplitValid : Nat → Nat → Nat → Int → Bool

/-- The HTTP responses `create_challenge_using_zip_file` can return,
one constructor per `Response(...)` site in the source. -/
inductive ZipResponse where
  | success (body : String)
  | hostTeamError (user : String)
  | configSerializerErrors
  | creationError
deriving DecidableEq, Repr

/-- Outcome of one invocation: final database, how many times the
transactional scope was entered, how many times deletion of the downloaded
archive was attempted, and the returned HTTP response (`none` models the
implicit `return None` after falling off the end of the function). -/
structure ImportResult where
  db : Db
  txnOpens : Nat
  removeAttempts : Nat
  response : Option ZipResponse
deriving DecidableEq, Repr

/-- Line 388: the download base directory is the fixed path /tmp/ . -/
def zip_file_download_base_location (_ : Env) : String := "/tmp/"

/-- Line 390: the download target is the fixed name `zip_challenge.zip`
under the fixed base directory, the same for every invocation. -/
def zip_file_download_location (env : Env) : String :=
  zip_file_download_base_location env ++ "zip_challenge.zip"

/-- Line 396: the extraction directory is the fixed path /tmp/ . -/
def zip_file_extract_location (_ : Env) : String := "/tmp/"

/-- Lines 401-403: scan the archive entry list, keeping the last name that
ends in `.yaml` or `.yml`. -/
def isYamlEntry (n : String) : Bool :=
  strEndsWith n ".yaml" || strEndsWith n ".yml"

def selectYaml (names : List String) : Option String :=
  names.foldl (fun acc n => if isYamlEntry n then some n else acc) none

/-- Lines 507-510: resolve one phase-split chunk into concrete keys:
merge the chunk, read the three 1-based ordinals and the visibility, and
index the creation-order id lists at ordinal minus one. -/
def resolveChunk (cpIds lbIds dsIds : List Nat) (c : List YDict) :
    Except PyErr (Nat × Nat × Nat × Int) :=
  let temp := mergeAll c
  exBind (pyDictGet temp "challenge_phase_id") fun v1 =>
  exBind (pyInt v1) fun o1 =>
  exBind (pyIndex cpIds (o1 - 1)) fun cp =>
  exBind (pyDictGet temp "leaderboard_id") fun v2 =>
  exBind (pyInt v2) fun o2 =>
  exBind (pyIndex lbIds (o2 - 1)) fun lb =>
  exBind (pyDictGet temp "dataset_split_id") fun v3 =>
  exBind (pyInt v3) fun o3 =>
  exBind (pyIndex dsIds (o3 - 1)) fun ds =>
  exBind (pyDictGet temp "visibility") fun v4 =>
  exBind (pyInt v4) fun vis =>
  .ok (cp, lb, ds, vis)

/-- Reading an ordinal field out of a chunk (used to state properties of
`resolveChunk`). -/
def ordinalOf (c : List YDict) (k : String) : Except PyErr Int :=
  exBind (pyDictGet (mergeAll c) k) pyInt

/-- Lines 437-449: the leaderboard loop.  Each chunk of two entries is
merged into one payload; a valid payload creates a row whose primary key is
appended to `leaderboard_ids`, an invalid payload is skipped silently. -/
def processLeaderboards (env : Env) (chunks : List (List YDict))
    (db : Db) (ids : List Nat) : Db × List Nat :=
  match chunks with
  | [] => (db, ids)
  | c :: rest =>
      let data := mergeAll c
      if env.leaderboardValid data then
        let st := createLeaderboard db
        processLeaderboards env rest st.1 (ids ++ [st.2])
      else processLeaderboards env rest db ids

/-- Lines 480-493: the dataset-split loop, chunks of three entries. -/
def processDatasetSplits (env : Env) (chunks : List (List YDict))
    (db : Db) (ids : List Nat) : Db × List Nat :=
  match chunks with
  | [] => (db, ids)
  | c :: rest =>
      let data := mergeAll c
      if env.datasetSplitValid data then
        let st := createDatasetSplit db
        processDatasetSplits env rest st.1 (ids ++ [st.2])
      else processDatasetSplits env rest db ids

/-- Lines 453-476: the challenge-phase loop, chunks of eleven entries.
Building the serializer evaluates the local `challenge` (a `NameError` when
the challenge serializer was invalid).  For a valid payload, the row is
created, then `chunk[7]` is indexed and its `test_annotation_file` read (an
`IndexError` or `KeyError` when absent); a non-empty name rebinds the
annotation path, which otherwise keeps its value from a previous iteration
(`NameError` when never bound); if the path is an existing file the
annotation is attached. -/
def processPhases (env : Env) (chQ : Option Nat) (chunks : List (List YDict))
    (db : Db) (ids : List Nat) (annotPath : Option String) :
    Except PyErr (Db × List Nat) :=
  match chunks with
  | [] => .ok (db, ids)
  | c :: rest =>
      let data := mergeAll c
      match chQ with
      | none => .error .nameError
      | some ch =>
        if env.phaseValid data then
          let st := createPhase db ch
          exBind (pyListIdx c 7) fun d7 =>
          exBind (pyDictGet d7 "test_annotation_file") fun taf =>
          exBind (pyLen taf) fun n =>
          let annotPath1 :=
            if n > 0 then
              some (zip_file_extract_location env ++ "zip_challenge/" ++ pyStr taf)
            else annotPath
          match annotPath1 with
          | none => .error .nameError
          | some p =>
            if env.isfile p then
              exBind (pyDictGet data "test_annotation_file") fun _ =>
              processPhases env chQ rest (markAnnotated st.1 st.2) (ids ++ [st.2]) annotPath1
            else processPhases env chQ rest st.1 (ids ++ [st.2]) annotPath1
        else processPhases env chQ rest db ids annotPath

/-- Lines 497-522: the phase-split loop, chunks of four entries.  The three
ordinals are resolved against the id lists built by the previous loops;
a valid resolved payload creates a row, an invalid one is skipped. -/
def processSplits (env : Env) (cpIds lbIds dsIds : List Nat)
    (chunks : List (List YDict)) (db : Db) (ids : List Nat) :
    Except PyErr (Db × List Nat) :=
  match chunks with
  | [] => .ok (db, ids)
  | c :: rest =>
      exBind (resolveChunk cpIds lbIds dsIds c) fun v =>
      if env.phaseSplitValid v.1 v.2.1 v.2.2.1 v.2.2.2 then
        let st := createPhaseSplit db v.1 v.2.1 v.2.2.1 v.2.2.2
        processSplits env cpIds lbIds dsIds rest st.1 (ids ++ [st.2])
      else processSplits env cpIds lbIds dsIds rest db ids

/-- Lines 409-425: resolve the top-level image and evaluation-script
entries.  The image path is bound only when the extension is jpg/jpeg/png
(the png case matches any name ending in the three letters png, dot or
not, as in the source); the script path only when the name is non-empty.
Line 419 then tests `os.path.isfile` on both paths in order, raising
`NameError` on whichever is unbound; only when both files exist are upload
objects built, otherwise the raw manifest strings are kept. -/
def resolveAssets (env : Env) : Except PyErr (AssetVal × AssetVal) :=
  let M := env.manifest
  let imgPathQ :=
    if strEndsWith M.image ".jpg" || strEndsWith M.image ".jpeg" || strEndsWith M.image "png"
    then some (zip_file_extract_location env ++ "zip_challenge/" ++ M.image)
    else none
  let scrPathQ :=
    if M.evaluation_script.length > 0
    then some (zip_file_extract_location env ++ "zip_challenge/" ++ M.evaluation_script)
    else none
  match imgPathQ with
  | none => .error .nameError
  | some ip =>
    if env.isfile ip then
      match scrPathQ with
      | none => .error .nameError
      | some sp =>
        if env.isfile sp then .ok (.uploaded ip, .uploaded sp)
        else .ok (.rawName M.image, .rawName M.evaluation_script)
    else .ok (.rawName M.image, .rawName M.evaluation_script)

/-- Lines 386-522: the body of the `with transaction.atomic():` block up
to the configuration lookup.  With a non-200 fetch the whole 200-block is
skipped.  Returns the database and the binding state of the local
`challenge` (`none` when the name was never bound). -/
def fetchAndBuild (env : Env) (team : Nat) (db : Db) :
    Except PyErr (Db × Option Nat) :=
  if env.statusCode = 200 then
    match selectYaml env.namelist with
    | none => .error .nameError
    | some _ =>
      exBind (resolveAssets env) fun vals =>
      let st1 :=
        if env.challengeValid then
          (let s := createChallenge db team vals.1 vals.2; (s.1, some s.2))
        else (db, (none : Option Nat))
      let r2 := processLeaderboards env (pyChunks 2 env.manifest.leaderboard) st1.1 []
      exBind (processPhases env st1.2 (pyChunks 11 env.manifest.challenge_phases) r2.1 [] none) fun r3 =>
      let r4 := processDatasetSplits env (pyChunks 3 env.manifest.dataset_splits) r3.1 []
      exBind (processSplits env r3.2 r2.2 r4.2 (pyChunks 4 env.manifest.challenge_phase_splits) r4.1 []) fun r5 =>
      .ok (r5.1, st1.2)
  else .ok (db, none)

/-- Any ORM instance is truthy in Python. -/
def recTruthy (_ : ConfigRec) : Bool := true

/-- Lines 523-529: look the configuration row back up, and if truthy link
it to `challenge` (a `NameError` when that local was never bound) and
return the success response; a falsy row would fall off the block. -/
def linkStep (cfgPk : Nat) (chQ : Option Nat) (db : Db) :
    Except PyErr (Db × Option ZipResponse) :=
  match db.configs.find? (fun c => c.pk == cfgPk) with
  | none => .error .doesNotExist
  | some cfg =>
    if recTruthy cfg then
      match chQ with
      | none => .error .nameError
      | some ch =>
        .ok (setConfigChallenge db cfgPk ch,
             some (.success "The Challenge is successfully created"))
    else .ok (db, none)

/-- The full transactional block (lines 385-529). -/
def atomicBody (env : Env) (team cfgPk : Nat) (db : Db) :
    Except PyErr (Db × Option ZipResponse) :=
  match fetchAndBuild env team db with
  | .error e => .error e
  | .ok st => linkStep cfgPk st.2 st.1

/-- Lines 366-541: the whole view.  The host-team lookup and the
configuration serializer run before the transaction; the transactional
block either returns a response or raises, in which case every write it
performed is rolled back and the generic error is returned; the archive
cleanup (lines 536-541) runs only when control falls off the
transactional block without returning. -/
def create_challenge_using_zip_file (env : Env) (db : Db) : ImportResult :=
  match pyGetSingle env.hostTeams with
  | .error _ => ⟨db, 0, 0, some (.hostTeamError env.userName)⟩
  | .ok team =>
    if env.configValid then
      let st := createConfig db env.zip_configuration
      match atomicBody env team st.2 st.1 with
      | .ok (db2, some resp) => ⟨db2, 1, 0, some resp⟩
      | .ok (db2, none) => ⟨db2, 1, 1, none⟩
      | .error _ => ⟨st.1, 1, 0, some .creationError⟩
    else ⟨db, 0, 0, some .configSerializerErrors⟩

/-- A `Challenge` row as seen by `get_all_challenges`. -/
structure ChallengeRow where
  published : Bool
  start_date : Int
  end_date : Int
deriving DecidableEq, Repr

/-- Lines 186-213: `get_all_challenges`.  A `challenge_time` outside the
four keywords is rejected; otherwise the queryset filter always includes
`published=True` plus the time-window condition for the keyword. -/
def get_all_challenges (challenge_time : String) (now : Int)
    (rows : List ChallengeRow) : Except String (List ChallengeRow) :=
  if (["all", "future", "past", "present"].contains (pyLowerStr challenge_time)) = false then
    .error "Wrong url pattern!"
  else
    let t := pyLowerStr challenge_time
    let inWindow : ChallengeRow → Bool := fun c =>
      if t == "past" then decide (c.end_date < now)
      else if t == "present" then decide (c.start_date < now) && decide (c.end_date > now)
      else if t == "future" then decide (c.start_date > now)
      else true
    .ok (rows.filter (fun c => c.published && inWindow c))

/-- Whether one phase-split chunk ends up persisted by the split loop:
its resolution must succeed and the resolved payload must validate. -/
def splitPasses (env : Env) (cpIds lbIds dsIds : List Nat) (c : List YDict) : Bool :=
  match resolveChunk cpIds lbIds dsIds c with
  | .ok v => env.phaseSplitValid v.1 v.2.1 v.2.2.1 v.2.2.2
  | .error _ => false

/-- A baseline environment for concrete runs: one host team, a valid
configuration payload, a 200 fetch, one yaml entry in the archive, every
serializer accepting, every path an existing file, and an empty manifest. -/
def baseEnv : Env where
  userName := "alice"
  hostTeams := [3]
  configValid := true
  zip_configuration := "http://storage/challenge.zip"
  statusCode := 200
  namelist := ["challenge_config.yaml"]
  manifest :=
    { image := "logo.jpg"
      evaluation_script := "eval.py"
      leaderboard := []
      challenge_phases := []
      dataset_splits := []
      challenge_phase_splits := [] }
  isfile := fun _ => true
  challengeValid := true
  leaderboardValid := fun _ => true
  phaseValid := fun _ => true
  datasetSplitValid := fun _ => true
  phaseSplitValid := fun _ _ _ _ => true

/-- A phase-split section whose challenge-phase ordinal (5) exceeds every
id list the run can build. -/
def envOrdinalTooBig : Env :=
  { baseEnv with
    manifest :=
      { baseEnv.manifest with
        challenge_phase_splits :=
          [[("challenge_phase_id", .n 5)], [("leaderboard_id", .n 1)],
           [("dataset_split_id", .n 1)], [("visibility", .n 1)]] } }

/-- A manifest whose leaderboard section is a flat list of two single-field
mappings, i.e. one leaderboard spread over two entries. -/
def envTwoLbEntries : Env :=
  { baseEnv with
    manifest :=
      { baseEnv.manifest with
        leaderboard := [[("id", .n 1)], [("schema", .s "accuracy")]] } }

/-- One phase-split chunk whose three ordinals are all 1. -/
def splitChunkOnes : List YDict :=
  [[("challenge_phase_id", .n 1)], [("leaderboard_id", .n 1)],
   [("dataset_split_id", .n 1)], [("visibility", .n 3)]]

/-- A complete manifest: one leaderboard (two entries), one phase (eight
entries, the eighth carrying the annotation file), one dataset split
(three entries), one phase-split (four entries, ordinals 1/1/1). -/
def envFullManifest : Env :=
  { baseEnv with
    manifest :=
      { baseEnv.manifest with
        leaderboard := [[("id", .n 1)], [("schema", .s "accuracy")]]
        challenge_phases :=
          [[("id", .n 1)], [("name", .s "phase one")], [("description", .s "d")],
           [("leaderboard_public", .n 1)], [("start_date", .s "2019-01-01")],
           [("end_date", .s "2019-06-01")], [("codename", .s "p1")],
           [("test_annotation_file", .s "ann.txt")]]
        dataset_splits := [[("id", .n 1)], [("name", .s "val split")], [("codename", .s "v")]]
        challenge_phase_splits := splitChunkOnes } }

/-- An image entry with an extension outside jpg/jpeg/png. -/
def envBadImageExt : Env :=
  { baseEnv with
    manifest := { baseEnv.manifest with image := "logo.gif" } }

/-- A dataset-split section that the dataset-split serializer rejects. -/
def envDsRejected : Env :=
  { baseEnv with
    datasetSplitValid := fun _ => false
    manifest :=
      { baseEnv.manifest with
        dataset_splits := [[("id", .n 1)], [("name", .s "val split")], [("codename", .s "v")]] } }

/-- A non-success archive fetch. -/
def envFetch404 : Env := { baseEnv with statusCode := 404 }

/-- An archive without any yaml entry. -/
def envNoYaml : Env := { baseEnv with namelist := ["readme.txt", "data.csv"] }

/-- A user owning no host team. -/
def envNoHostTeam : Env := { baseEnv with hostTeams := [] }

/-- Concrete rows for the listing endpoint. -/
def rowPublished : ChallengeRow := ⟨true, 0, 5⟩

def rowUnpublished : ChallengeRow := ⟨false, 0, 5⟩

theorem getLast?_cons_getD (a : α) (l : List α) :
    (a :: l).getLast? = some (l.getLast?.getD a) := by
  induction l generalizing a with
  | nil => rfl
  | cons b t ih => rw [List.getLast?_cons_cons, ih b]; simp

theorem linkStep_ok_shape {cfgPk : Nat} {chQ : Option Nat} {db : Db}
    {r : Db × Option ZipResponse}
    (h : linkStep cfgPk chQ db = .ok r) :
    ∃ ch, chQ = some ch ∧
      r = (setConfigChallenge db cfgPk ch,
           some (.success "The Challenge is successfully created")) := by
  unfold linkStep at h
  cases hf : db.configs.find? (fun c => c.pk == cfgPk) with
  | none => rw [hf] at h; exact absurd h (by simp)
  | some cfg =>
      rw [hf] at h
      simp only [recTruthy, if_true] at h
      cases chQ with
      | none => exact absurd h (by simp)
      | some ch =>
          refine ⟨ch, rfl, ?_⟩
          exact ((Except.ok.injEq _ _).mp h).symm

theorem atomicBody_ok_shape {env : Env} {team cfgPk : Nat} {db : Db}
    {r : Db × Option ZipResponse}
    (h : atomicBody env team cfgPk db = .ok r) :
    ∃ db1 ch, fetchAndBuild env team db = .ok (db1, some ch) ∧
      r = (setConfigChallenge db1 cfgPk ch,
           some (.success "The Challenge is successfully created")) := by
  unfold atomicBody at h
  cases hf : fetchAndBuild env team db with
  | error e => rw [hf] at h; exact absurd h (by simp)
  | ok st =>
      obtain ⟨db1x, chQ⟩ := st
      rw [hf] at h
      obtain ⟨ch, hch, hr⟩ := linkStep_ok_shape h
      subst hch
      exact ⟨db1x, ch, rfl, hr⟩

/-- Claim C6: contrary to the claim, deletion of the downloaded archive is
never attempted: both the success return (line 529) and the exception
return (line 534) leave the function before the cleanup block at lines
536-541, so the attempt count is zero on every run. -/
theorem zip_cleanup_never_attempted (env : Env) (db : Db) :
    (create_challenge_using_zip_file env db).removeAttempts = 0 := by
  unfold create_challenge_using_zip_file
  cases hg : pyGetSingle env.hostTeams with
  | error e => rfl
  | ok team =>
      cases hc : env.configValid with
      | false => simp only [hc, Bool.false_eq_true, if_false]
      | true =>
          simp only [hc, if_true]
          cases hb : atomicBody env team (createConfig db env.zip_configuration).2
              (createConfig db env.zip_configuration).1 with
          | error e => rfl
          | ok p =>
              obtain ⟨db1, ch, _, hp⟩ := atomicBody_ok_shape hb
              rw [hp]

theorem pyGetSingle_ne_one {l : List Nat} (h : l.length ≠ 1) :
    ∃ e, pyGetSingle l = .error e := by
  match l with
  | [] => exact ⟨.doesNotExist, rfl⟩
  | [x] => simp at h
  | x :: y :: t => exact ⟨.multipleObjects, rfl⟩

/-- Claim C9: a requesting user who does not own exactly one host team
(zero teams raise DoesNotExist, several raise MultipleObjectsReturned) gets
the host-team error immediately: the database is untouched (in particular
no ChallengeConfiguration row is created) and the transactional scope is
never entered. -/
theorem zip_import_requires_single_host_team (env : Env) (db : Db)
    (h : env.hostTeams.length ≠ 1) :
    create_challenge_using_zip_file env db =
      ⟨db, 0, 0, some (.hostTeamError env.userName)⟩ := by
  obtain ⟨e, he⟩ := pyGetSingle_ne_one h
  unfold create_challenge_using_zip_file
  rw [he]

theorem zip_import_requires_single_host_team_witness :
    create_challenge_using_zip_file envNoHostTeam emptyDb =
      ⟨emptyDb, 0, 0, some (.hostTeamError "alice")⟩ :=
  zip_import_requires_single_host_team envNoHostTeam emptyDb (by decide)

/-- Claim C8: contrary to the claim, the temporary download location and
the extraction directory are the same fixed /tmp paths for every
invocation, so two concurrent imports always collide on them. -/
theorem zip_import_fixed_tmp_paths (e1 e2 : Env) :
    zip_file_download_location e1 = zip_file_download_location e2 ∧
    zip_file_extract_location e1 = zip_file_extract_location e2 ∧
    zip_file_download_location e1 = "/tmp/zip_challenge.zip" ∧
    zip_file_extract_location e1 = "/tmp/" :=
  ⟨rfl, rfl, rfl, rfl⟩

/-- Claim C10: whatever the `challenge_time` keyword, every row returned by
`get_all_challenges` has its published flag set: the queryset filter always
includes published=True. -/
theorem get_all_challenges_only_published (t : String) (now : Int)
    (rows l : List ChallengeRow)
    (h : get_all_challenges t now rows = .ok l) :
    l.all (fun c => c.published) = true := by
  unfold get_all_challenges at h
  by_cases hg : (["all", "future", "past", "present"].contains (pyLowerStr t)) = false
  · rw [if_pos hg] at h; exact absurd h (by simp)
  · rw [if_neg hg] at h
    injection h with h
    subst h
    simp only [List.all_eq_true]
    intro c hc
    rw [List.mem_filter] at hc
    have h2 := hc.2
    rw [Bool.and_eq_true] at h2
    exact h2.1

theorem get_all_challenges_only_published_witness :
    [rowPublished].all (fun c => c.published) = true :=
  get_all_challenges_only_published "past" 10 [rowUnpublished, rowPublished]
    [rowPublished] (by rfl)

/-- Claim C4 failing input: a manifest whose image entry has an extension
outside jpg/jpeg/png leaves the image path name unbound, so line 419 raises
NameError and the whole import aborts with the generic error, creating no
Challenge at all — the claim instead expects the Challenge to be created
without the asset. -/
theorem zip_import_bad_image_ext_aborts :
    (create_challenge_using_zip_file envBadImageExt emptyDb).response = some .creationError ∧
    (create_challenge_using_zip_file envBadImageExt emptyDb).db.challenges = [] := by
  decide

/-- Claim C1: whenever the transactional block raises (which is exactly
when the generic creation error is returned), every Challenge,
ChallengePhase, Leaderboard, DatasetSplit and ChallengePhaseSplit write of
the run is rolled back: those five tables are unchanged from the initial
state. -/
theorem zip_import_error_rolls_back (env : Env) (db : Db)
    (h : (create_challenge_using_zip_file env db).response = some .creationError) :
    (create_challenge_using_zip_file env db).db.challenges = db.challenges ∧
    (create_challenge_using_zip_file env db).db.phases = db.phases ∧
    (create_challenge_using_zip_file env db).db.leaderboards = db.leaderboards ∧
    (create_challenge_using_zip_file env db).db.datasetSplits = db.datasetSplits ∧
    (create_challenge_using_zip_file env db).db.phaseSplits = db.phaseSplits := by
  unfold create_challenge_using_zip_file at h ⊢
  cases hg : pyGetSingle env.hostTeams with
  | error e => rw [hg] at h; exact absurd h (by simp)
  | ok team =>
      rw [hg] at h
      cases hc : env.configValid with
      | false =>
          simp only [hc, Bool.false_eq_true, if_false] at h
          exact absurd h (by simp)
      | true =>
          simp only [hc, if_true] at h
          cases hb : atomicBody env team (createConfig db env.zip_configuration).2
              (createConfig db env.zip_configuration).1 with
          | error e =>
              simp only [createConfig] at hb
              simp [createConfig, hb]
          | ok p =>
              obtain ⟨db1, ch, _, hp⟩ := atomicBody_ok_shape hb
              rw [hb, hp] at h
              exact absurd h (by simp)

theorem zip_import_error_rolls_back_witness :
    (create_challenge_using_zip_file envOrdinalTooBig emptyDb).response = some .creationError ∧
    (create_challenge_using_zip_file envOrdinalTooBig emptyDb).db.challenges = [] ∧
    (create_challenge_using_zip_file envOrdinalTooBig emptyDb).db.phases = [] ∧
    (create_challenge_using_zip_file envOrdinalTooBig emptyDb).db.leaderboards = [] ∧
    (create_challenge_using_zip_file envOrdinalTooBig emptyDb).db.datasetSplits = [] ∧
    (create_challenge_using_zip_file envOrdinalTooBig emptyDb).db.phaseSplits = [] :=
  have h : (create_challenge_using_zip_file envOrdinalTooBig emptyDb).response
      = some .creationError := by decide
  have h2 := zip_import_error_rolls_back envOrdinalTooBig emptyDb h
  ⟨h, h2.1, h2.2.1, h2.2.2.1, h2.2.2.2.1, h2.2.2.2.2⟩

theorem selectYaml_foldl (names : List String) :
    ∀ acc, names.foldl (fun a n => if isYamlEntry n then some n else a) acc
      = match (names.filter isYamlEntry).getLast? with
        | some y => some y
        | none => acc := by
  induction names with
  | nil => intro acc; rfl
  | cons n rest ih =>
      intro acc
      simp only [List.foldl_cons, List.filter_cons]
      cases hn : isYamlEntry n with
      | false =>
          simp only [Bool.false_eq_true, if_false]
          exact ih acc
      | true =>
          simp only [if_true]
          rw [ih (some n), getLast?_cons_getD]
          cases (rest.filter isYamlEntry).getLast? <;> rfl

/-- Claim C7: the manifest is chosen by scanning the archive entry list for
names ending in .yaml or .yml, the last match overwriting earlier ones; and
when no entry matches, the unbound `yaml_file` local raises NameError at
line 405 and the import fails with the generic fatal error. -/
theorem zip_manifest_last_yaml_wins :
    (∀ names, selectYaml names = (names.filter isYamlEntry).getLast?) ∧
    (∀ (env : Env) (db : Db) (t : Nat), env.hostTeams = [t] →
      env.configValid = true → env.statusCode = 200 →
      env.namelist.filter isYamlEntry = [] →
      (create_challenge_using_zip_file env db).response = some .creationError) := by
  have hsel : ∀ names, selectYaml names = (names.filter isYamlEntry).getLast? := by
    intro names
    unfold selectYaml
    rw [selectYaml_foldl]
    cases (names.filter isYamlEntry).getLast? <;> rfl
  refine ⟨hsel, ?_⟩
  intro env db t ht hc h200 hfil
  have hnone : selectYaml env.namelist = none := by rw [hsel, hfil]; rfl
  have hfb : ∀ dbx, fetchAndBuild env t dbx = .error .nameError := by
    intro dbx
    unfold fetchAndBuild
    rw [if_pos h200, hnone]
  have hab : ∀ cfgPk dbx, atomicBody env t cfgPk dbx = .error .nameError := by
    intro cfgPk dbx
    unfold atomicBody
    rw [hfb dbx]
  unfold create_challenge_using_zip_file
  rw [ht]
  simp only [pyGetSingle, hc, if_true, hab]

theorem zip_manifest_last_yaml_wins_witness :
    selectYaml ["a.yaml", "notes.txt", "b.yml"]
      = (["a.yaml", "notes.txt", "b.yml"].filter isYamlEntry).getLast? ∧
    (create_challenge_using_zip_file envNoYaml emptyDb).response = some .creationError :=
  ⟨zip_manifest_last_yaml_wins.1 ["a.yaml", "notes.txt", "b.yml"],
   zip_manifest_last_yaml_wins.2 envNoYaml emptyDb 3 rfl rfl rfl (by decide)⟩

theorem processLeaderboards_spec (env : Env) :
    ∀ (chunks : List (List YDict)) (db : Db) (ids : List Nat),
      (processLeaderboards env chunks db ids).1.configs = db.configs ∧
      (processLeaderboards env chunks db ids).1.challenges = db.challenges ∧
      (processLeaderboards env chunks db ids).1.phases = db.phases ∧
      (processLeaderboards env chunks db ids).1.datasetSplits = db.datasetSplits ∧
      (processLeaderboards env chunks db ids).1.phaseSplits = db.phaseSplits ∧
      (processLeaderboards env chunks db ids).1.leaderboards.length =
        db.leaderboards.length +
          (chunks.filter (fun c => env.leaderboardValid (mergeAll c))).length := by
  intro chunks
  induction chunks with
  | nil => intro db ids; simp [processLeaderboards]
  | cons c rest ih =>
      intro db ids
      unfold processLeaderboards
      cases hv : env.leaderboardValid (mergeAll c) with
      | false => simpa [hv] using ih db ids
      | true =>
          simp only [hv, if_true, List.filter_cons, List.length_cons]
          have := ih (createLeaderboard db).1 (ids ++ [(createLeaderboard db).2])
          refine ⟨this.1, this.2.1, this.2.2.1, this.2.2.2.1, this.2.2.2.2.1, ?_⟩
          rw [this.2.2.2.2.2]
          simp [createLeaderboard]
          omega

theorem processDatasetSplits_spec (env : Env) :
    ∀ (chunks : List (List YDict)) (db : Db) (ids : List Nat),
      (processDatasetSplits env chunks db ids).1.configs = db.configs ∧
      (processDatasetSplits env chunks db ids).1.challenges = db.challenges ∧
      (processDatasetSplits env chunks db ids).1.phases = db.phases ∧
      (processDatasetSplits env chunks db ids).1.leaderboards = db.leaderboards ∧
      (processDatasetSplits env chunks db ids).1.phaseSplits = db.phaseSplits ∧
      (processDatasetSplits env chunks db ids).1.datasetSplits.length =
        db.datasetSplits.length +
          (chunks.filter (fun c => env.datasetSplitValid (mergeAll c))).length := by
  intro chunks
  induction chunks with
  | nil => intro db ids; simp [processDatasetSplits]
  | cons c rest ih =>
      intro db ids
      unfold processDatasetSplits
      cases hv : env.datasetSplitValid (mergeAll c) with
      | false => simpa [hv] using ih db ids
      | true =>
          simp only [hv, if_true, List.filter_cons, List.length_cons]
          have := ih (createDatasetSplit db).1 (ids ++ [(createDatasetSplit db).2])
          refine ⟨this.1, this.2.1, this.2.2.1, this.2.2.2.1, this.2.2.2.2.1, ?_⟩
          rw [this.2.2.2.2.2]
          simp [createDatasetSplit]
          omega

theorem processPhases_spec (env : Env) (chQ : Option Nat) :
    ∀ (chunks : List (List YDict)) (db : Db) (ids : List Nat) (ap : Option String)
      (db' : Db) (ids' : List Nat),
      processPhases env chQ chunks db ids ap = .ok (db', ids') →
      db'.configs = db.configs ∧ db'.challenges = db.challenges ∧
      db'.leaderboards = db.leaderboards ∧ db'.datasetSplits = db.datasetSplits ∧
      db'.phaseSplits = db.phaseSplits ∧
      db'.phases.length = db.phases.length +
        (chunks.filter (fun c => env.phaseValid (mergeAll c))).length := by
  intro chunks
  induction chunks with
  | nil =>
      intro db ids ap db' ids' h
      unfold processPhases at h
      injection h with h
      injection h with h1 h2
      subst h1
      simp
  | cons c rest ih =>
      intro db ids ap db' ids' h
      unfold processPhases at h
      cases chQ with
      | none => exact absurd h (by simp)
      | some ch =>
          cases hv : env.phaseValid (mergeAll c) with
          | false =>
              simp only [hv, Bool.false_eq_true, if_false] at h
              have := ih db ids ap db' ids' h
              simpa [hv] using this
          | true =>
              simp only [hv, if_true] at h
              cases h7 : pyListIdx c 7 with
              | error e => rw [h7] at h; exact absurd h (by simp [exBind])
              | ok d7 =>
                  rw [h7] at h
                  simp only [exBind] at h
                  cases h8 : pyDictGet d7 "test_annotation_file" with
                  | error e => rw [h8] at h; exact absurd h (by simp)
                  | ok taf =>
                      rw [h8] at h
                      simp only [] at h
                      cases h9 : pyLen taf with
                      | error e => rw [h9] at h; exact absurd h (by simp)
                      | ok n =>
                          rw [h9] at h
                          simp only [] at h
                          by_cases hn : n > 0
                          · simp only [hn, if_true] at h
                            by_cases hfile : env.isfile
                                (zip_file_extract_location env ++ "zip_challenge/" ++ pyStr taf)
                            · simp only [hfile, if_true] at h
                              cases h10 : pyDictGet (mergeAll c) "test_annotation_file" with
                              | error e => rw [h10] at h; exact absurd h (by simp)
                              | ok w =>
                                  rw [h10] at h
                                  simp only [] at h
                                  have := ih _ _ _ _ _ h
                                  refine ⟨?_, ?_, ?_, ?_, ?_, ?_⟩ <;>
                                    simp [this.1, this.2.1, this.2.2.1, this.2.2.2.1,
                                          this.2.2.2.2.1, this.2.2.2.2.2,
                                          markAnnotated, createPhase, hv, List.filter_cons]
                                  omega
                            · simp only [hfile, if_false] at h
                              have := ih _ _ _ _ _ h
                              refine ⟨?_, ?_, ?_, ?_, ?_, ?_⟩ <;>
                                simp [this.1, this.2.1, this.2.2.1, this.2.2.2.1,
                                      this.2.2.2.2.1, this.2.2.2.2.2,
                                      createPhase, hv, List.filter_cons]
                              omega
                          · simp only [hn, if_false] at h
                            cases ap with
                            | none => exact absurd h (by simp)
                            | some p =>
                                simp only [] at h
                                by_cases hfile : env.isfile p
                                · simp only [hfile, if_true] at h
                                  cases h10 : pyDictGet (mergeAll c) "test_annotation_file" with
                                  | error e => rw [h10] at h; exact absurd h (by simp)
                                  | ok w =>
                                      rw [h10] at h
                                      simp only [] at h
                                      have := ih _ _ _ _ _ h
                                      refine ⟨?_, ?_, ?_, ?_, ?_, ?_⟩ <;>
                                        simp [this.1, this.2.1, this.2.2.1, this.2.2.2.1,
                                              this.2.2.2.2.1, this.2.2.2.2.2,
                                              markAnnotated, createPhase, hv, List.filter_cons]
                                      omega
                                · simp only [hfile, if_false] at h
                                  have := ih _ _ _ _ _ h
                                  refine ⟨?_, ?_, ?_, ?_, ?_, ?_⟩ <;>
                                    simp [this.1, this.2.1, this.2.2.1, this.2.2.2.1,
                                          this.2.2.2.2.1, this.2.2.2.2.2,
                                          createPhase, hv, List.filter_cons]
                                  omega

theorem processSplits_spec (env : Env) (cpIds lbIds dsIds : List Nat) :
    ∀ (chunks : List (List YDict)) (db : Db) (ids : List Nat)
      (db' : Db) (ids' : List Nat),
      processSplits env cpIds lbIds dsIds chunks db ids = .ok (db', ids') →
      db'.configs = db.configs ∧ db'.challenges = db.challenges ∧
      db'.leaderboards = db.leaderboards ∧ db'.phases = db.phases ∧
      db'.datasetSplits = db.datasetSplits ∧
      db'.phaseSplits.length = db.phaseSplits.length +
        (chunks.filter (fun c => splitPasses env cpIds lbIds dsIds c)).length ∧
      (∀ c ∈ chunks, ∃ v, resolveChunk cpIds lbIds dsIds c = .ok v) := by
  intro chunks
  induction chunks with
  | nil =>
      intro db ids db' ids' h
      unfold processSplits at h
      injection h with h
      injection h with h1 h2
      subst h1
      simp
  | cons c rest ih =>
      intro db ids db' ids' h
      unfold processSplits at h
      cases hr : resolveChunk cpIds lbIds dsIds c with
      | error e => rw [hr] at h; exact absurd h (by simp [exBind])
      | ok v =>
          rw [hr] at h
          simp only [exBind] at h
          cases hv : env.phaseSplitValid v.1 v.2.1 v.2.2.1 v.2.2.2 with
          | false =>
              simp only [hv, Bool.false_eq_true, if_false] at h
              have := ih db ids db' ids' h
              refine ⟨this.1, this.2.1, this.2.2.1, this.2.2.2.1, this.2.2.2.2.1, ?_, ?_⟩
              · rw [this.2.2.2.2.2.1]
                simp [List.filter_cons, splitPasses, hr, hv]
              · intro d hd
                rcases List.mem_cons.mp hd with hdc | hdr
                · exact ⟨v, hdc ▸ hr⟩
                · exact this.2.2.2.2.2.2 d hdr
          | true =>
              simp only [hv, if_true] at h
              have := ih (createPhaseSplit db v.1 v.2.1 v.2.2.1 v.2.2.2).1
                (ids ++ [(createPhaseSplit db v.1 v.2.1 v.2.2.1 v.2.2.2).2]) db' ids' h
              refine ⟨?_, ?_, ?_, ?_, ?_, ?_, ?_⟩
              · rw [this.1]; simp [createPhaseSplit]
              · rw [this.2.1]; simp [createPhaseSplit]
              · rw [this.2.2.1]; simp [createPhaseSplit]
              · rw [this.2.2.2.1]; simp [createPhaseSplit]
              · rw [this.2.2.2.2.1]; simp [createPhaseSplit]
              · rw [this.2.2.2.2.2.1]
                simp [List.filter_cons, splitPasses, hr, hv, createPhaseSplit]
                omega
              · intro d hd
                rcases List.mem_cons.mp hd with hdc | hdr
                · exact ⟨v, hdc ▸ hr⟩
                · exact this.2.2.2.2.2.2 d hdr

theorem fetchAndBuild_not200 (env : Env) (team : Nat) (db : Db)
    (h : env.statusCode ≠ 200) :
    fetchAndBuild env team db = .ok (db, none) := by
  unfold fetchAndBuild
  rw [if_neg h]

theorem fetchAndBuild_ok_inv (env : Env) (team : Nat) (db db' : Db) (chQ : Option Nat)
    (h200 : env.statusCode = 200)
    (h : fetchAndBuild env team db = .ok (db', chQ)) :
    db'.configs = db.configs ∧
    (∀ cpk, chQ = some cpk → ∃ rec : ChallengeRec, rec.pk = cpk ∧
        db'.challenges = db.challenges ++ [rec]) ∧
    (chQ = none → db'.challenges = db.challenges) ∧
    db'.leaderboards.length = db.leaderboards.length +
      ((pyChunks 2 env.manifest.leaderboard).filter
        (fun c => env.leaderboardValid (mergeAll c))).length ∧
    db'.phases.length = db.phases.length +
      ((pyChunks 11 env.manifest.challenge_phases).filter
        (fun c => env.phaseValid (mergeAll c))).length ∧
    db'.datasetSplits.length = db.datasetSplits.length +
      ((pyChunks 3 env.manifest.dataset_splits).filter
        (fun c => env.datasetSplitValid (mergeAll c))).length ∧
    ∃ cpIds lbIds dsIds : List Nat,
      db'.phaseSplits.length = db.phaseSplits.length +
        ((pyChunks 4 env.manifest.challenge_phase_splits).filter
          (fun c => splitPasses env cpIds lbIds dsIds c)).length ∧
      (∀ c ∈ pyChunks 4 env.manifest.challenge_phase_splits,
        ∃ v, resolveChunk cpIds lbIds dsIds c = .ok v) := by
  unfold fetchAndBuild at h
  rw [if_pos h200] at h
  cases hy : selectYaml env.namelist with
  | none => rw [hy] at h; exact absurd h (by simp)
  | some y =>
      rw [hy] at h
      cases ha : resolveAssets env with
      | error e => rw [ha] at h; exact absurd h (by simp [exBind])
      | ok vals =>
          rw [ha] at h
          simp only [exBind] at h
          cases hcv : env.challengeValid with
          | true =>
              simp only [hcv, if_true] at h
              cases hph : processPhases env (some (createChallenge db team vals.1 vals.2).2)
                  (pyChunks 11 env.manifest.challenge_phases)
                  (processLeaderboards env (pyChunks 2 env.manifest.leaderboard)
                    (createChallenge db team vals.1 vals.2).1 []).1 [] none with
              | error e => rw [hph] at h; exact absurd h (by simp)
              | ok r3 =>
                  rw [hph] at h
                  simp only [] at h
                  cases hs : processSplits env r3.2
                      (processLeaderboards env (pyChunks 2 env.manifest.leaderboard)
                        (createChallenge db team vals.1 vals.2).1 []).2
                      (processDatasetSplits env (pyChunks 3 env.manifest.dataset_splits) r3.1 []).2
                      (pyChunks 4 env.manifest.challenge_phase_splits)
                      (processDatasetSplits env (pyChunks 3 env.manifest.dataset_splits) r3.1 []).1
                      [] with
                  | error e => rw [hs] at h; exact absurd h (by simp)
                  | ok r5 =>
                      rw [hs] at h
                      simp only [] at h
                      injection h with h
                      injection h with h1 h2
                      subst h1
                      subst h2
                      obtain ⟨l1, l2, l3, l4, l5, l6⟩ :=
                        processLeaderboards_spec env (pyChunks 2 env.manifest.leaderboard)
                          (createChallenge db team vals.1 vals.2).1 []
                      obtain ⟨p1, p2, p3, p4, p5, p6⟩ :=
                        processPhases_spec env (some (createChallenge db team vals.1 vals.2).2)
                          (pyChunks 11 env.manifest.challenge_phases) _ [] none r3.1 r3.2
                          (by rw [hph])
                      obtain ⟨d1, d2, d3, d4, d5, d6⟩ :=
                        processDatasetSplits_spec env (pyChunks 3 env.manifest.dataset_splits) r3.1 []
                      obtain ⟨s1, s2, s3, s4, s5, s6, s7⟩ :=
                        processSplits_spec env r3.2
                          (processLeaderboards env (pyChunks 2 env.manifest.leaderboard)
                            (createChallenge db team vals.1 vals.2).1 []).2
                          (processDatasetSplits env (pyChunks 3 env.manifest.dataset_splits) r3.1 []).2
                          (pyChunks 4 env.manifest.challenge_phase_splits) _ [] r5.1 r5.2
                          (by rw [hs])
                      refine ⟨?_, ?_, ?_, ?_, ?_, ?_, ?_⟩
                      · rw [s1, d1, p1, l1]; simp [createChallenge]
                      · intro cpk hcpk
                        injection hcpk with hcpk
                        refine ⟨⟨db.nextPk, team, vals.1, vals.2⟩, by simp [createChallenge, ← hcpk], ?_⟩
                        rw [s2, d2, p2, l2]; simp [createChallenge]
                      · intro hnone; exact absurd hnone (by simp)
                      · rw [s3, d4, p3, l6]; simp [createChallenge]
                      · rw [s4, d3, p6, l3]; simp [createChallenge]
                      · rw [s5, d6, p4, l4]; simp [createChallenge]
                      · refine ⟨r3.2, _, _, ?_, s7⟩
                        rw [s6, d5, p5, l5]; simp [createChallenge]
          | false =>
              simp only [hcv, Bool.false_eq_true, if_false] at h
              cases hph : processPhases env none
                  (pyChunks 11 env.manifest.challenge_phases)
                  (processLeaderboards env (pyChunks 2 env.manifest.leaderboard) db []).1 [] none with
              | error e => rw [hph] at h; exact absurd h (by simp)
              | ok r3 =>
                  rw [hph] at h
                  simp only [] at h
                  cases hs : processSplits env r3.2
                      (processLeaderboards env (pyChunks 2 env.manifest.leaderboard) db []).2
                      (processDatasetSplits env (pyChunks 3 env.manifest.dataset_splits) r3.1 []).2
                      (pyChunks 4 env.manifest.challenge_phase_splits)
                      (processDatasetSplits env (pyChunks 3 env.manifest.dataset_splits) r3.1 []).1
                      [] with
                  | error e => rw [hs] at h; exact absurd h (by simp)
                  | ok r5 =>
                      rw [hs] at h
                      simp only [] at h
                      injection h with h
                      injection h with h1 h2
                      subst h1
                      subst h2
                      obtain ⟨l1, l2, l3, l4, l5, l6⟩ :=
                        processLeaderboards_spec env (pyChunks 2 env.manifest.leaderboard) db []
                      obtain ⟨p1, p2, p3, p4, p5, p6⟩ :=
                        processPhases_spec env none
                          (pyChunks 11 env.manifest.challenge_phases) _ [] none r3.1 r3.2
                          (by rw [hph])
                      obtain ⟨d1, d2, d3, d4, d5, d6⟩ :=
                        processDatasetSplits_spec env (pyChunks 3 env.manifest.dataset_splits) r3.1 []
                      obtain ⟨s1, s2, s3, s4, s5, s6, s7⟩ :=
                        processSplits_spec env r3.2
                          (processLeaderboards env (pyChunks 2 env.manifest.leaderboard) db []).2
                          (processDatasetSplits env (pyChunks 3 env.manifest.dataset_splits) r3.1 []).2
                          (pyChunks 4 env.manifest.challenge_phase_splits) _ [] r5.1 r5.2
                          (by rw [hs])
                      refine ⟨?_, ?_, ?_, ?_, ?_, ?_, ?_⟩
                      · rw [s1, d1, p1, l1]
                      · intro cpk hcpk; exact absurd hcpk (by simp)
                      · intro hnone
                        rw [s2, d2, p2, l2]
                      · rw [s3, d4, p3, l6]
                      · rw [s4, d3, p6, l3]
                      · rw [s5, d6, p4, l4]
                      · exact ⟨r3.2, _, _, by rw [s6, d5, p5, l5], s7⟩

theorem map_id_of_mem {l : List α} {f : α → α} (h : ∀ a ∈ l, f a = a) :
    l.map f = l := by
  induction l with
  | nil => rfl
  | cons x xs ih =>
      simp only [List.map_cons, h x (List.mem_cons_self x xs),
        ih (fun a ha => h a (List.mem_cons_of_mem x ha))]

theorem run_success_decomp (env : Env) (db : Db) (m : String)
    (h : (create_challenge_using_zip_file env db).response = some (.success m)) :
    ∃ t db1 ch, pyGetSingle env.hostTeams = .ok t ∧ env.configValid = true ∧
      env.statusCode = 200 ∧
      fetchAndBuild env t (createConfig db env.zip_configuration).1 = .ok (db1, some ch) ∧
      (create_challenge_using_zip_file env db).db
        = setConfigChallenge db1 (createConfig db env.zip_configuration).2 ch := by
  unfold create_challenge_using_zip_file at h ⊢
  cases hg : pyGetSingle env.hostTeams with
  | error e => rw [hg] at h; exact absurd h (by simp)
  | ok t =>
      rw [hg] at h
      cases hc : env.configValid with
      | false =>
          simp only [hc, Bool.false_eq_true, if_false] at h
          exact absurd h (by simp)
      | true =>
          simp only [hc, if_true] at h
          dsimp only
          rw [if_pos rfl]
          cases hb : atomicBody env t (createConfig db env.zip_configuration).2
              (createConfig db env.zip_configuration).1 with
          | error e =>
              rw [hb] at h
              exact absurd h (by simp)
          | ok p =>
              obtain ⟨db1, ch, hf, hp⟩ := atomicBody_ok_shape hb
              subst hp
              by_cases hs : env.statusCode = 200
              · exact ⟨t, db1, ch, rfl, rfl, hs, hf, rfl⟩
              · rw [fetchAndBuild_not200 env t _ hs] at hf
                injection hf with hf
                injection hf with hf1 hf2
                exact absurd hf2 (by simp)

/-- Claim C3: once the host-team lookup and the configuration serializer
pass, a ChallengeConfiguration row is appended before the transactional
scope opens and survives every outcome; its challenge link is null on every
failed run (including a non-success fetch status) and is set to the pk of
the one Challenge created by the run exactly when the import succeeds. -/
theorem zip_import_config_outlives_failures (env : Env) (db : Db) (t : Nat)
    (ht : env.hostTeams = [t]) (hc : env.configValid = true)
    (hwf : ∀ c ∈ db.configs, c.pk < db.nextPk) :
    ∃ cfg : ConfigRec,
      (create_challenge_using_zip_file env db).db.configs = db.configs ++ [cfg] ∧
      cfg.zip_configuration = env.zip_configuration ∧
      ((create_challenge_using_zip_file env db).response ≠
          some (.success "The Challenge is successfully created") →
        cfg.challenge = none) ∧
      (∀ m, (create_challenge_using_zip_file env db).response = some (.success m) →
        ∃ rec : ChallengeRec,
          (create_challenge_using_zip_file env db).db.challenges = db.challenges ++ [rec] ∧
          cfg.challenge = some rec.pk) := by
  unfold create_challenge_using_zip_file
  rw [ht]
  simp only [pyGetSingle, hc, if_true]
  cases hb : atomicBody env t (createConfig db env.zip_configuration).2
      (createConfig db env.zip_configuration).1 with
  | error e =>
      refine ⟨⟨db.nextPk, env.zip_configuration, none⟩, ?_, rfl, fun _ => rfl, ?_⟩
      · simp [createConfig]
      · intro m hm; exact absurd hm (by simp)
  | ok p =>
      obtain ⟨db1, ch, hf, hp⟩ := atomicBody_ok_shape hb
      subst hp
      by_cases hs : env.statusCode = 200
      · obtain ⟨i1, i2, i3, i4, i5, i6, i7⟩ :=
          fetchAndBuild_ok_inv env t (createConfig db env.zip_configuration).1 db1
            (some ch) hs hf
        obtain ⟨rec, hrecpk, hrec⟩ := i2 ch rfl
        have hcfgs : db1.configs
            = db.configs ++ [⟨db.nextPk, env.zip_configuration, none⟩] := by
          rw [i1]; simp [createConfig]
        have hfun : ∀ c ∈ db.configs,
            (if c.pk == db.nextPk then ({ c with challenge := some ch } : ConfigRec)
             else c) = c := by
          intro c hcmem
          have hlt := hwf c hcmem
          have hbe : (c.pk == db.nextPk) = false := by
            simp only [beq_eq_false_iff_ne]; omega
          rw [hbe]
          simp
        refine ⟨⟨db.nextPk, env.zip_configuration, some ch⟩, ?_, rfl, ?_, ?_⟩
        · show (setConfigChallenge db1 (createConfig db env.zip_configuration).2 ch).configs
            = db.configs ++ [⟨db.nextPk, env.zip_configuration, some ch⟩]
          simp only [setConfigChallenge, hcfgs, List.map_append, List.map_cons,
            List.map_nil, createConfig]
          rw [map_id_of_mem hfun]
          simp
        · intro hne; exact absurd rfl hne
        · intro m hm
          refine ⟨rec, ?_, by rw [hrecpk]⟩
          show (setConfigChallenge db1 (createConfig db env.zip_configuration).2 ch).challenges
            = db.challenges ++ [rec]
          simp only [setConfigChallenge]
          rw [hrec]
          simp [createConfig]
      · rw [fetchAndBuild_not200 env t _ hs] at hf
        injection hf with hf
        injection hf with hf1 hf2
        exact absurd hf2 (by simp)

theorem zip_import_config_outlives_failures_witness :
    ∃ cfg : ConfigRec,
      (create_challenge_using_zip_file envFetch404 emptyDb).db.configs
        = emptyDb.configs ++ [cfg] ∧
      cfg.zip_configuration = envFetch404.zip_configuration ∧
      ((create_challenge_using_zip_file envFetch404 emptyDb).response ≠
          some (.success "The Challenge is successfully created") →
        cfg.challenge = none) ∧
      (∀ m, (create_challenge_using_zip_file envFetch404 emptyDb).response
          = some (.success m) →
        ∃ rec : ChallengeRec,
          (create_challenge_using_zip_file envFetch404 emptyDb).db.challenges
            = emptyDb.challenges ++ [rec] ∧
          cfg.challenge = some rec.pk) :=
  zip_import_config_outlives_failures envFetch404 emptyDb 3 rfl rfl
    (by intro c hcmem; simp [emptyDb] at hcmem)

/-- Claim C5 counterexample: with the dataset-split serializer rejecting
its payload, the import still returns the success response; the rejected
dataset split is silently absent instead of aborting the import. -/
theorem zip_import_skipped_entity_counterexample :
    (create_challenge_using_zip_file envDsRejected emptyDb).response
      = some (.success "The Challenge is successfully created") ∧
    envDsRejected.manifest.dataset_splits.length = 3 ∧
    envDsRejected.datasetSplitValid
      (mergeAll ((pyChunks 3 envDsRejected.manifest.dataset_splits).getD 0 [])) = false ∧
    (create_challenge_using_zip_file envDsRejected emptyDb).db.datasetSplits = [] := by
  decide

theorem run_success_counts (env : Env) (db : Db)
    (h : (create_challenge_using_zip_file env db).response
        = some (.success "The Challenge is successfully created")) :
    (create_challenge_using_zip_file env db).db.leaderboards.length
        = db.leaderboards.length + ((pyChunks 2 env.manifest.leaderboard).filter
            (fun c => env.leaderboardValid (mergeAll c))).length ∧
    (create_challenge_using_zip_file env db).db.phases.length
        = db.phases.length + ((pyChunks 11 env.manifest.challenge_phases).filter
            (fun c => env.phaseValid (mergeAll c))).length ∧
    (create_challenge_using_zip_file env db).db.datasetSplits.length
        = db.datasetSplits.length + ((pyChunks 3 env.manifest.dataset_splits).filter
            (fun c => env.datasetSplitValid (mergeAll c))).length := by
  obtain ⟨t, db1, ch, hg, hc, hs, hf, hdb⟩ := run_success_decomp env db _ h
  obtain ⟨i1, i2, i3, i4, i5, i6, i7⟩ :=
    fetchAndBuild_ok_inv env t (createConfig db env.zip_configuration).1 db1 (some ch) hs hf
  refine ⟨?_, ?_, ?_⟩
  · rw [hdb]
    show (setConfigChallenge db1 (createConfig db env.zip_configuration).2 ch).leaderboards.length = _
    simp only [setConfigChallenge]
    rw [i4]
    simp [createConfig]
  · rw [hdb]
    show (setConfigChallenge db1 (createConfig db env.zip_configuration).2 ch).phases.length = _
    simp only [setConfigChallenge]
    rw [i5]
    simp [createConfig]
  · rw [hdb]
    show (setConfigChallenge db1 (createConfig db env.zip_configuration).2 ch).datasetSplits.length = _
    simp only [setConfigChallenge]
    rw [i6]
    simp [createConfig]

/-- Claim C5 (amended): a failing per-entity validation does not abort the
import; on a successful run the committed leaderboards, phases and dataset
splits are exactly the chunks whose payload validated, and the phase-split
loop likewise commits exactly the resolvable chunks whose payload
validated, skipping the rest. -/
theorem zip_import_invalid_entities_skipped (env : Env) (db : Db)
    (h : (create_challenge_using_zip_file env db).response
        = some (.success "The Challenge is successfully created")) :
    (create_challenge_using_zip_file env db).db.leaderboards.length
        = db.leaderboards.length + ((pyChunks 2 env.manifest.leaderboard).filter
            (fun c => env.leaderboardValid (mergeAll c))).length ∧
    (create_challenge_using_zip_file env db).db.phases.length
        = db.phases.length + ((pyChunks 11 env.manifest.challenge_phases).filter
            (fun c => env.phaseValid (mergeAll c))).length ∧
    (create_challenge_using_zip_file env db).db.datasetSplits.length
        = db.datasetSplits.length + ((pyChunks 3 env.manifest.dataset_splits).filter
            (fun c => env.datasetSplitValid (mergeAll c))).length ∧
    (∀ (cpIds lbIds dsIds : List Nat) (chunks : List (List YDict)) (dbx : Db)
        (ids : List Nat) (db' : Db) (ids' : List Nat),
      processSplits env cpIds lbIds dsIds chunks dbx ids = .ok (db', ids') →
      db'.phaseSplits.length = dbx.phaseSplits.length +
        (chunks.filter (fun c => splitPasses env cpIds lbIds dsIds c)).length) := by
  obtain ⟨cnt1, cnt2, cnt3⟩ := run_success_counts env db h
  refine ⟨cnt1, cnt2, cnt3, ?_⟩
  intro cpIds lbIds dsIds chunks dbx ids db' ids' hps
  exact (processSplits_spec env cpIds lbIds dsIds chunks dbx ids db' ids' hps).2.2.2.2.2.1

theorem zip_import_invalid_entities_skipped_witness :
    (create_challenge_using_zip_file envDsRejected emptyDb).db.leaderboards.length
        = emptyDb.leaderboards.length + ((pyChunks 2 envDsRejected.manifest.leaderboard).filter
            (fun c => envDsRejected.leaderboardValid (mergeAll c))).length ∧
    (create_challenge_using_zip_file envDsRejected emptyDb).db.phases.length
        = emptyDb.phases.length + ((pyChunks 11 envDsRejected.manifest.challenge_phases).filter
            (fun c => envDsRejected.phaseValid (mergeAll c))).length ∧
    (create_challenge_using_zip_file envDsRejected emptyDb).db.datasetSplits.length
        = emptyDb.datasetSplits.length + ((pyChunks 3 envDsRejected.manifest.dataset_splits).filter
            (fun c => envDsRejected.datasetSplitValid (mergeAll c))).length ∧
    (⟨2, [], [], [], [], [], [⟨1, 1, 2, 3, 3⟩]⟩ : Db).phaseSplits.length
        = emptyDb.phaseSplits.length + ([splitChunkOnes].filter
            (fun c => splitPasses envDsRejected [1] [2] [3] c)).length :=
  have hthm := zip_import_invalid_entities_skipped envDsRejected emptyDb (by decide)
  ⟨hthm.1, hthm.2.1, hthm.2.2.1,
   hthm.2.2.2 [1] [2] [3] [splitChunkOnes] emptyDb []
     (⟨2, [], [], [], [], [], [⟨1, 1, 2, 3, 3⟩]⟩ : Db) [1] (by rfl)⟩

theorem pyIndex_one_based (l : List Nat) (o : Int)
    (h1 : 1 ≤ o) (h2 : o.toNat ≤ l.length) :
    pyIndex l (o - 1) = .ok (l.getD (o.toNat - 1) 0) := by
  unfold pyIndex
  have hnn : ¬ (o - 1 < 0) := by omega
  simp only [hnn, if_false]
  have hlt : (o - 1).toNat < l.length := by omega
  rw [dif_pos ⟨by omega, hlt⟩]
  have hlt2 : o.toNat - 1 < l.length := by omega
  have hval : l.get ⟨(o - 1).toNat, hlt⟩ = l.getD (o.toNat - 1) 0 := by
    rw [List.getD_eq_getElem _ _ hlt2, List.get_eq_getElem]
    congr 1
    show (o - 1).toNat = o.toNat - 1
    omega
  rw [hval]

theorem ordinalOf_unpack {c : List YDict} {k : String} {o : Int}
    (h : ordinalOf c k = .ok o) :
    ∃ u, pyDictGet (mergeAll c) k = .ok u ∧ pyInt u = .ok o := by
  unfold ordinalOf at h
  cases hd : pyDictGet (mergeAll c) k with
  | error e => rw [hd] at h; exact absurd h (by simp [exBind])
  | ok u =>
      rw [hd] at h
      simp only [exBind] at h
      exact ⟨u, rfl, h⟩

theorem resolveChunk_one_based (cpIds lbIds dsIds : List Nat) (c : List YDict)
    (o1 o2 o3 v : Int)
    (h1 : ordinalOf c "challenge_phase_id" = .ok o1)
    (hb1 : 1 ≤ o1) (hr1 : o1.toNat ≤ cpIds.length)
    (h2 : ordinalOf c "leaderboard_id" = .ok o2)
    (hb2 : 1 ≤ o2) (hr2 : o2.toNat ≤ lbIds.length)
    (h3 : ordinalOf c "dataset_split_id" = .ok o3)
    (hb3 : 1 ≤ o3) (hr3 : o3.toNat ≤ dsIds.length)
    (h4 : ordinalOf c "visibility" = .ok v) :
    resolveChunk cpIds lbIds dsIds c
      = .ok (cpIds.getD (o1.toNat - 1) 0, lbIds.getD (o2.toNat - 1) 0,
             dsIds.getD (o3.toNat - 1) 0, v) := by
  obtain ⟨u1, hd1, hp1⟩ := ordinalOf_unpack h1
  obtain ⟨u2, hd2, hp2⟩ := ordinalOf_unpack h2
  obtain ⟨u3, hd3, hp3⟩ := ordinalOf_unpack h3
  obtain ⟨u4, hd4, hp4⟩ := ordinalOf_unpack h4
  unfold resolveChunk
  dsimp only
  rw [hd1]
  simp only [exBind]
  rw [hp1]
  simp only [exBind]
  rw [pyIndex_one_based cpIds o1 hb1 hr1]
  simp only [exBind]
  rw [hd2]
  simp only [exBind]
  rw [hp2]
  simp only [exBind]
  rw [pyIndex_one_based lbIds o2 hb2 hr2]
  simp only [exBind]
  rw [hd3]
  simp only [exBind]
  rw [hp3]
  simp only [exBind]
  rw [pyIndex_one_based dsIds o3 hb3 hr3]
  simp only [exBind]
  rw [hd4]
  simp only [exBind]
  rw [hp4]

/-- Claim C2 counterexample: a successful import of a manifest whose
leaderboard section has two entries creates only one Leaderboard record,
because the loop consumes the list in chunks of two merged into a single
payload — the created count does not equal the manifest list length. -/
theorem zip_import_count_mismatch_counterexample :
    (create_challenge_using_zip_file envTwoLbEntries emptyDb).response
      = some (.success "The Challenge is successfully created") ∧
    envTwoLbEntries.manifest.leaderboard.length = 2 ∧
    (create_challenge_using_zip_file envTwoLbEntries emptyDb).db.leaderboards.length = 1 ∧
    (create_challenge_using_zip_file envTwoLbEntries emptyDb).db.leaderboards.length
      ≠ envTwoLbEntries.manifest.leaderboard.length := by
  decide

/-- Claim C2 (amended): on a successful import starting from an empty
database in which every serializer validates, the created record counts
equal the numbers of chunk-groups of the flat manifest lists (size 2 for
leaderboards, 11 for phases, 3 for dataset splits, 4 for phase-splits),
and the phase-split resolution maps each 1-based in-range ordinal to the
identifier at that position of the corresponding creation-order id list
(ordinal 1 selects the first created entity). -/
theorem zip_import_chunked_counts (env : Env)
    (hlb : ∀ d, env.leaderboardValid d = true)
    (hph : ∀ d, env.phaseValid d = true)
    (hds : ∀ d, env.datasetSplitValid d = true)
    (hps : ∀ a b c v, env.phaseSplitValid a b c v = true)
    (h : (create_challenge_using_zip_file env emptyDb).response
        = some (.success "The Challenge is successfully created")) :
    (create_challenge_using_zip_file env emptyDb).db.leaderboards.length
        = (pyChunks 2 env.manifest.leaderboard).length ∧
    (create_challenge_using_zip_file env emptyDb).db.phases.length
        = (pyChunks 11 env.manifest.challenge_phases).length ∧
    (create_challenge_using_zip_file env emptyDb).db.datasetSplits.length
        = (pyChunks 3 env.manifest.dataset_splits).length ∧
    (create_challenge_using_zip_file env emptyDb).db.phaseSplits.length
        = (pyChunks 4 env.manifest.challenge_phase_splits).length ∧
    (∀ (cpIds lbIds dsIds : List Nat) (c : List YDict) (o1 o2 o3 v : Int),
      ordinalOf c "challenge_phase_id" = .ok o1 → 1 ≤ o1 → o1.toNat ≤ cpIds.length →
      ordinalOf c "leaderboard_id" = .ok o2 → 1 ≤ o2 → o2.toNat ≤ lbIds.length →
      ordinalOf c "dataset_split_id" = .ok o3 → 1 ≤ o3 → o3.toNat ≤ dsIds.length →
      ordinalOf c "visibility" = .ok v →
      resolveChunk cpIds lbIds dsIds c
        = .ok (cpIds.getD (o1.toNat - 1) 0, lbIds.getD (o2.toNat - 1) 0,
               dsIds.getD (o3.toNat - 1) 0, v)) := by
  obtain ⟨cnt1, cnt2, cnt3⟩ := run_success_counts env emptyDb h
  obtain ⟨t, db1, ch, hg, hc, hs, hf, hdb⟩ := run_success_decomp env emptyDb _ h
  obtain ⟨i1, i2, i3, i4, i5, i6, i7⟩ :=
    fetchAndBuild_ok_inv env t (createConfig emptyDb env.zip_configuration).1 db1
      (some ch) hs hf
  refine ⟨?_, ?_, ?_, ?_, ?_⟩
  · rw [cnt1, List.filter_eq_self.mpr (fun a _ => hlb (mergeAll a))]
    simp [emptyDb]
  · rw [cnt2, List.filter_eq_self.mpr (fun a _ => hph (mergeAll a))]
    simp [emptyDb]
  · rw [cnt3, List.filter_eq_self.mpr (fun a _ => hds (mergeAll a))]
    simp [emptyDb]
  · obtain ⟨cpIds, lbIds, dsIds, hlen, hres⟩ := i7
    have hall : ∀ c ∈ pyChunks 4 env.manifest.challenge_phase_splits,
        splitPasses env cpIds lbIds dsIds c = true := by
      intro c hcmem
      obtain ⟨vv, hvv⟩ := hres c hcmem
      simp [splitPasses, hvv, hps]
    rw [hdb]
    show (setConfigChallenge db1 (createConfig emptyDb env.zip_configuration).2 ch).phaseSplits.length = _
    simp only [setConfigChallenge]
    rw [hlen, List.filter_eq_self.mpr hall]
    simp [createConfig, emptyDb]
  · intro cpIds lbIds dsIds c o1 o2 o3 v h1 hb1 hr1 h2 hb2 hr2 h3 hb3 hr3 h4
    exact resolveChunk_one_based cpIds lbIds dsIds c o1 o2 o3 v
      h1 hb1 hr1 h2 hb2 hr2 h3 hb3 hr3 h4

theorem zip_import_chunked_counts_witness :
    (create_challenge_using_zip_file envFullManifest emptyDb).db.leaderboards.length
        = (pyChunks 2 envFullManifest.manifest.leaderboard).length ∧
    (create_challenge_using_zip_file envFullManifest emptyDb).db.phases.length
        = (pyChunks 11 envFullManifest.manifest.challenge_phases).length ∧
    (create_challenge_using_zip_file envFullManifest emptyDb).db.datasetSplits.length
        = (pyChunks 3 envFullManifest.manifest.dataset_splits).length ∧
    (create_challenge_using_zip_file envFullManifest emptyDb).db.phaseSplits.length
        = (pyChunks 4 envFullManifest.manifest.challenge_phase_splits).length ∧
    resolveChunk [4] [3] [5] splitChunkOnes = .ok (4, 3, 5, 3) :=
  have hthm := zip_import_chunked_counts envFullManifest (fun _ => rfl) (fun _ => rfl)
    (fun _ => rfl) (fun _ _ _ _ => rfl) (by decide)
  ⟨hthm.1, hthm.2.1, hthm.2.2.1, hthm.2.2.2.1,
   hthm.2.2.2.2 [4] [3] [5] splitChunkOnes 1 1 1 3 (by rfl) (by decide) (by decide)
     (by rfl) (by decide) (by decide) (by rfl) (by decide) (by decide) (by rfl)⟩
